import Mathlib

/-!
# GMTK2021Pawn: the per-tick movement / mirror / fire logic

A shallow embedding of `GMTK2021/Source/GMTK2021/GMTK2021Pawn.cpp`.

* `float` arithmetic is read as exact arithmetic in a linearly ordered field `K`
  (run it with `K := ℚ`); the rounding of `+`, `-` and `*` is not part of the
  model.  The engine's square roots and trigonometry are parameters and may be
  inexact; binary32 values are rationals.
* The host engine is not part of the repository.  The vector helpers the pawn
  calls (`GetClampedToMaxSize`, `GetSafeNormal2D`, `VectorPlaneProject`,
  `Rotation`, `RotateVector`) follow the engine's definitions, quoted next to
  each of them; the transcendental primitives below them (`InvSqrt`, `Sqrt`,
  `Atan2`, `SinCos`) are parameters, collected in `FMath`.
* What the engine answers during one `Tick` (axis values, sweep results, actor
  locations, the world pointer) is an input, `TickContext`.
* What the pawn asks of the engine (moves, spawns, timers, sounds) is recorded
  in order as a list of `Call`s; dereferencing a null pointer ends the run with
  a `Fault`, the calls made before it being kept.
-/

namespace GMTK2021

/-! ## Engine vectors and rotators -/

/-- Engine type `FVector`: three components. -/
@[ext]
structure FVector (K : Type) where
  X : K
  Y : K
  Z : K
deriving DecidableEq

/-- Engine type `FRotator`: pitch, yaw and roll, in degrees. -/
@[ext]
structure FRotator (K : Type) where
  Pitch : K
  Yaw : K
  Roll : K
deriving DecidableEq

/-- The transcendental primitives of the engine's `FMath`, taken as parameters.
`Atan2Deg Y X` stands for `FMath::Atan2(Y, X) * (180.f / PI)`, and `SinDeg a`,
`CosDeg a` for the two results of `FMath::SinCos(.., .., FMath::DegreesToRadians(a))`. -/
structure FMath (K : Type) where
  InvSqrt : K → K
  Sqrt : K → K
  Atan2Deg : K → K → K
  SinDeg : K → K
  CosDeg : K → K

section Vectors

variable {K : Type} [LinearOrderedField K]

/-- Engine constant `KINDA_SMALL_NUMBER` (1.e-4f). -/
def KINDA_SMALL_NUMBER : K := 1 / 10000

/-- Engine constant `SMALL_NUMBER` (1.e-8f), the default tolerance of `GetSafeNormal2D`. -/
def SMALL_NUMBER : K := 1 / 100000000

namespace FVector

/-- Engine constant `FVector::ZeroVector`. -/
def ZeroVector : FVector K := ⟨0, 0, 0⟩

/-- Engine `FVector::operator+`. -/
def add (A B : FVector K) : FVector K := ⟨A.X + B.X, A.Y + B.Y, A.Z + B.Z⟩

/-- Engine `FVector::operator-`. -/
def sub (A B : FVector K) : FVector K := ⟨A.X - B.X, A.Y - B.Y, A.Z - B.Z⟩

/-- Engine `FVector::operator*(float Scale)`. -/
def scale (V : FVector K) (Scale : K) : FVector K := ⟨V.X * Scale, V.Y * Scale, V.Z * Scale⟩

/-- Engine `FVector::operator|`, the dot product. -/
def dot (A B : FVector K) : K := A.X * B.X + A.Y * B.Y + A.Z * B.Z

/-- Engine `FVector::SizeSquared`: `X*X + Y*Y + Z*Z`. -/
def SizeSquared (V : FVector K) : K := V.X * V.X + V.Y * V.Y + V.Z * V.Z

/-- Engine `FVector::GetClampedToMaxSize(MaxSize)`:
```
if (MaxSize < KINDA_SMALL_NUMBER) return FVector::ZeroVector;
const float VSq = SizeSquared();
if (VSq > FMath::Square(MaxSize)) {
  const float Scale = MaxSize * FMath::InvSqrt(VSq);
  return FVector(X*Scale, Y*Scale, Z*Scale);
} else return *this;
``` -/
def GetClampedToMaxSize (InvSqrt : K → K) (V : FVector K) (MaxSize : K) : FVector K :=
  if MaxSize < KINDA_SMALL_NUMBER then ZeroVector
  else
    let VSq := V.SizeSquared
    if VSq > MaxSize * MaxSize then
      let Scale := MaxSize * InvSqrt VSq
      ⟨V.X * Scale, V.Y * Scale, V.Z * Scale⟩
    else V

/-- Engine `FVector::GetSafeNormal2D(Tolerance)`:
```
const float SquareSum = X*X + Y*Y;
if (SquareSum == 1.f) { if (Z == 0.f) return *this; else return FVector(X, Y, 0.f); }
else if (SquareSum < Tolerance) return FVector::ZeroVector;
const float Scale = FMath::InvSqrt(SquareSum);
return FVector(X*Scale, Y*Scale, 0.f);
``` -/
def GetSafeNormal2D (InvSqrt : K → K) (V : FVector K) (Tolerance : K) : FVector K :=
  let SquareSum := V.X * V.X + V.Y * V.Y
  if SquareSum = 1 then
    if V.Z = 0 then V else ⟨V.X, V.Y, 0⟩
  else if SquareSum < Tolerance then ZeroVector
  else
    let Scale := InvSqrt SquareSum
    ⟨V.X * Scale, V.Y * Scale, 0⟩

/-- Engine `FVector::ProjectOnToNormal(Normal)`: `Normal * (*this | Normal)`. -/
def ProjectOnToNormal (V Normal : FVector K) : FVector K := Normal.scale (V.dot Normal)

/-- Engine `FVector::VectorPlaneProject(V, PlaneNormal)`:
`V - V.ProjectOnToNormal(PlaneNormal)`. -/
def VectorPlaneProject (V PlaneNormal : FVector K) : FVector K :=
  V.sub (V.ProjectOnToNormal PlaneNormal)

/-- Engine `FVector::Rotation()` (`ToOrientationRotator`):
```
R.Yaw = FMath::Atan2(Y, X) * (180.f / PI);
R.Pitch = FMath::Atan2(Z, FMath::Sqrt(X*X + Y*Y)) * (180.f / PI);
R.Roll = 0;
``` -/
def Rotation (E : FMath K) (V : FVector K) : FRotator K :=
  { Yaw := E.Atan2Deg V.Y V.X
    Pitch := E.Atan2Deg V.Z (E.Sqrt (V.X * V.X + V.Y * V.Y))
    Roll := 0 }

end FVector

namespace FRotator

/-- Engine `FRotator::operator*(float Scale)`. -/
def scale (R : FRotator K) (Scale : K) : FRotator K :=
  ⟨R.Pitch * Scale, R.Yaw * Scale, R.Roll * Scale⟩

/-- Engine `FRotator::RotateVector(V)`, that is
`FRotationMatrix(*this).TransformVector(V)`; the matrix rows are
```
M[0] = ( CP*CY,               CP*SY,              SP    )
M[1] = ( SR*SP*CY - CR*SY,    SR*SP*SY + CR*CY,  -SR*CP )
M[2] = ( -(CR*SP*CY + SR*SY), CY*SR - CR*SP*SY,   CR*CP )
```
with `S?`/`C?` the sine and cosine of pitch, yaw and roll, and
`TransformVector(V) = V.X*M[0] + V.Y*M[1] + V.Z*M[2]`. -/
def RotateVector (E : FMath K) (R : FRotator K) (V : FVector K) : FVector K :=
  let SP := E.SinDeg R.Pitch
  let CP := E.CosDeg R.Pitch
  let SY := E.SinDeg R.Yaw
  let CY := E.CosDeg R.Yaw
  let SR := E.SinDeg R.Roll
  let CR := E.CosDeg R.Roll
  { X := V.X * (CP * CY) + V.Y * (SR * SP * CY - CR * SY) + V.Z * (-(CR * SP * CY + SR * SY))
    Y := V.X * (CP * SY) + V.Y * (SR * SP * SY + CR * CY) + V.Z * (CY * SR - CR * SP * SY)
    Z := V.X * SP + V.Y * (-SR * CP) + V.Z * (CR * CP) }

end FRotator

end Vectors

/-! ## Engine replies and requests -/

/-- The fields of the engine's `FHitResult` that `Tick` reads. -/
structure FHitResult (K : Type) where
  bBlockingHit : Bool
  bStartPenetrating : Bool
  Time : K
  Normal : FVector K

namespace FHitResult

variable {K : Type} [LinearOrderedField K]

/-- Engine constructor `FHitResult(float InTime)`: no hit, at the given time. -/
def init (InTime : K) : FHitResult K :=
  { bBlockingHit := false, bStartPenetrating := false, Time := InTime, Normal := FVector.ZeroVector }

/-- Engine `FHitResult::IsValidBlockingHit()`: `bBlockingHit && !bStartPenetrating`. -/
def IsValidBlockingHit (Hit : FHitResult K) : Bool := Hit.bBlockingHit && !Hit.bStartPenetrating

end FHitResult

/-- Which root component a `MoveComponent` call is made on: the pawn's own
(`RootComponent`) or the mirror pawn's (`MirrorPawn->GetRootComponent()`). -/
inductive Target where
  | primary
  | mirror
deriving DecidableEq

/-- A request the pawn makes to the engine. -/
inductive Call (K : Type) where
  | MoveComponent (target : Target) (Delta : FVector K) (NewRotation : FRotator K) (bSweep : Bool)
  | SpawnActor (SpawnLocation : FVector K) (FireRotation : FRotator K)
  | SetTimer (Rate : K)
  | PlaySoundAtLocation (Sound : Nat) (Location : FVector K)
deriving DecidableEq

/-- A null pointer dereference. -/
inductive Fault where
  | NullWorld
  | NullMirrorPawn
deriving DecidableEq

/-- A run of pawn code: the engine calls it made, in order, and how it ended. -/
structure Outcome (K : Type) (α : Type) where
  calls : List (Call K)
  result : Except Fault α

namespace Outcome

variable {K : Type} {α β : Type}

/-- A run that makes no call and returns `a`. -/
def done (a : α) : Outcome K α := ⟨[], .ok a⟩

/-- A run that stops at a null dereference. -/
def fault (f : Fault) : Outcome K α := ⟨[], .error f⟩

/-- A run that makes one engine call. -/
def call (c : Call K) : Outcome K Unit := ⟨[c], .ok ()⟩

/-- Sequencing: the second run happens only when the first one returned. -/
def bind (o : Outcome K α) (f : α → Outcome K β) : Outcome K β :=
  match o.result with
  | .ok a => ⟨o.calls ++ (f a).calls, (f a).result⟩
  | .error e => ⟨o.calls, .error e⟩

end Outcome

/-! ## The pawn -/

/-- The members of `AGMTK2021Pawn` the code reads or writes.  `FireSound` and
`MirrorPawn` are pointers: `none` is `nullptr`. -/
structure AGMTK2021Pawn (K : Type) where
  MoveSpeed : K
  GunOffset : FVector K
  FireRate : K
  bCanFire : Bool
  FireSound : Option Nat
  MirrorPawn : Option Nat

/-- What the engine answers during one `Tick`: the four `GetInputAxisValue`
results, the sweep result each of the two `MoveComponent` calls of line 79 and
line 80 writes through its `OutHit` argument, `GetActorLocation()` of the pawn
and of its mirror, and `GetWorld()` (`none` is `nullptr`). -/
structure TickContext (K : Type) where
  ForwardValue : K
  RightValue : K
  FireForwardValue : K
  FireRightValue : K
  PrimaryHit : FHitResult K
  MirrorHit : FHitResult K
  ActorLocation : FVector K
  MirrorActorLocation : FVector K
  World : Option Unit

section Pawn

variable {K : Type} [LinearOrderedField K]

/-- The constructor `AGMTK2021Pawn::AGMTK2021Pawn()`, lines 46-51; the sound
asset it looks up and the mirror reference, which is assigned from outside,
are arguments. -/
def AGMTK2021Pawn.construct (FireSound MirrorPawn : Option Nat) : AGMTK2021Pawn K :=
  { MoveSpeed := 1000
    GunOffset := ⟨90, 0, 0⟩
    FireRate := 1 / 10
    bCanFire := true
    FireSound := FireSound
    MirrorPawn := MirrorPawn }

/-- Engine call `MoveComponent(Delta, NewRotation, bSweep, &OutHit)`: the
request is recorded, and the value returned is the content of `OutHit` after
the call: the engine stores its sweep result (`reply`) there, replacing what
the variable held. -/
def MoveComponent (target : Target) (Delta : FVector K) (NewRotation : FRotator K)
    (bSweep : Bool) (_OutHit : FHitResult K) (reply : FHitResult K) : Outcome K (FHitResult K) :=
  ⟨[Call.MoveComponent target Delta NewRotation bSweep], .ok reply⟩

/-- Dereferencing `MirrorPawn` (`MirrorPawn->...`). -/
def derefMirrorPawn (P : AGMTK2021Pawn K) : Outcome K Nat :=
  match P.MirrorPawn with
  | some m => Outcome.done m
  | none => Outcome.fault Fault.NullMirrorPawn

/-- Dereferencing the `World` pointer (`World->...`). -/
def derefWorld (World : Option Unit) : Outcome K Unit :=
  match World with
  | some w => Outcome.done w
  | none => Outcome.fault Fault.NullWorld

/-- Modelled from the spec: the default value of `FireShot`'s third parameter
`mirror`, declared in `GMTK2021Pawn.h`, which is missing; the spec has the
timer and the sound suppressed "for the mirror shot" only, so the two-argument
call of line 96 runs with `mirror = false`. -/
def FireShot_mirror_default : Bool := false

/-- `AGMTK2021Pawn::FireShot`, lines 110-138.  Returns the C++ return value and
the pawn (which `FireShot` does not modify). -/
def FireShot (E : FMath K) (P : AGMTK2021Pawn K) (C : TickContext K)
    (ActorLocation FireDirection : FVector K) (mirror : Bool) :
    Outcome K (Bool × AGMTK2021Pawn K) :=
  if P.bCanFire = true then
    if FireDirection.SizeSquared > 0 then
      let FireRotation := FireDirection.Rotation E
      let SpawnLocation := ActorLocation.add (FireRotation.RotateVector E P.GunOffset)
      let World := C.World
      (match World with
        | some _ => Outcome.call (Call.SpawnActor SpawnLocation FireRotation)
        | none => Outcome.done ()).bind fun _ =>
      (if !mirror then
        (derefWorld World).bind fun _ =>
        (Outcome.call (Call.SetTimer P.FireRate)).bind fun _ =>
        match P.FireSound with
        | some Sound => Outcome.call (Call.PlaySoundAtLocation Sound C.ActorLocation)
        | none => Outcome.done ()
      else Outcome.done ()).bind fun _ =>
      Outcome.done (true, P)
    else Outcome.done (false, P)
  else Outcome.done (false, P)

/-- `AGMTK2021Pawn::ShotTimerExpired`, lines 140-142. -/
def ShotTimerExpired (P : AGMTK2021Pawn K) : AGMTK2021Pawn K :=
  { P with bCanFire := true }

/-- Line 70 of `Tick`: `FVector(ForwardValue, RightValue, 0.f).GetClampedToMaxSize(1.0f)`. -/
def MoveDirection (InvSqrt : K → K) (ForwardValue RightValue : K) : FVector K :=
  FVector.GetClampedToMaxSize InvSqrt ⟨ForwardValue, RightValue, 0⟩ 1

/-- Lines 83-84 of `Tick`: `Normal2D = Hit.Normal.GetSafeNormal2D()` and
`Deflection = FVector::VectorPlaneProject(Movement, Normal2D) * (1.f - Hit.Time)`. -/
def Deflection (InvSqrt : K → K) (Movement : FVector K) (Hit : FHitResult K) : FVector K :=
  let Normal2D := Hit.Normal.GetSafeNormal2D InvSqrt SMALL_NUMBER
  (FVector.VectorPlaneProject Movement Normal2D).scale (1 - Hit.Time)

/-- Lines 76-88 of `Tick`: the move of the pawn and of its mirror, and the
deflection after a blocking hit.  Both sweeping `MoveComponent` calls are given
the address of the same local `Hit`. -/
def TickMove (E : FMath K) (P : AGMTK2021Pawn K) (C : TickContext K) (Movement : FVector K) :
    Outcome K Unit :=
  if Movement.SizeSquared > 0 then
    let NewRotation := Movement.Rotation E
    let Hit : FHitResult K := FHitResult.init 1
    (MoveComponent Target.primary Movement NewRotation true Hit C.PrimaryHit).bind fun Hit =>
    (derefMirrorPawn P).bind fun _ =>
    (MoveComponent Target.mirror (Movement.scale (-1)) (NewRotation.scale (-1)) true Hit
        C.MirrorHit).bind fun Hit =>
    if Hit.IsValidBlockingHit then
      let Deflection := Deflection E.InvSqrt Movement Hit
      (Outcome.call (Call.MoveComponent Target.primary Deflection NewRotation true)).bind fun _ =>
      (derefMirrorPawn P).bind fun _ =>
      Outcome.call
        (Call.MoveComponent Target.mirror (Deflection.scale (-1)) (NewRotation.scale (-1)) true)
    else Outcome.done ()
  else Outcome.done ()

/-- `AGMTK2021Pawn::Tick`, lines 64-108.  Returns the pawn after the tick. -/
def Tick (E : FMath K) (P : AGMTK2021Pawn K) (C : TickContext K) (DeltaSeconds : K) :
    Outcome K (AGMTK2021Pawn K) :=
  let MoveDirection := MoveDirection E.InvSqrt C.ForwardValue C.RightValue
  let Movement := (MoveDirection.scale P.MoveSpeed).scale DeltaSeconds
  (TickMove E P C Movement).bind fun _ =>
  let FireDirection : FVector K := ⟨C.FireForwardValue, C.FireRightValue, 0⟩
  (FireShot E P C C.ActorLocation FireDirection FireShot_mirror_default).bind fun r =>
  let success := r.1
  let P := r.2
  let MirrorFireDirection : FVector K := ⟨C.FireForwardValue * -1, C.FireRightValue * -1, 0⟩
  (derefMirrorPawn P).bind fun _ =>
  (FireShot E P C C.MirrorActorLocation MirrorFireDirection true).bind fun r =>
  let P := r.2
  Outcome.done (if success then { P with bCanFire := false } else P)

/-- The movement of line 73 of `Tick`: `MoveDirection * MoveSpeed * DeltaSeconds`. -/
def TickMovement (E : FMath K) (P : AGMTK2021Pawn K) (C : TickContext K) (DeltaSeconds : K) :
    FVector K :=
  ((MoveDirection E.InvSqrt C.ForwardValue C.RightValue).scale P.MoveSpeed).scale DeltaSeconds

/-- The engine's math functions are exact at the points a shot along the X axis
consults: the square root of 1, the angles of the directions `+X` and `-X`,
and the sine and cosine of 0 and 180 degrees. -/
def FMath.ExactOnXAxis (E : FMath K) : Prop :=
  E.Sqrt 1 = 1 ∧ E.Atan2Deg 0 1 = 0 ∧ E.Atan2Deg 0 (-1) = 180 ∧
    E.SinDeg 0 = 0 ∧ E.CosDeg 0 = 1 ∧ E.SinDeg 180 = 0 ∧ E.CosDeg 180 = -1

/-! ## Reading a list of calls -/

/-- The `MoveComponent` requests of a run, in order: on whom, and by how much. -/
def moveRequests : List (Call K) → List (Target × FVector K)
  | [] => []
  | Call.MoveComponent t d _ _ :: cs => (t, d) :: moveRequests cs
  | _ :: cs => moveRequests cs

/-- The `SpawnActor` requests of a run, in order. -/
def spawnRequests : List (Call K) → List (FVector K × FRotator K)
  | [] => []
  | Call.SpawnActor l r :: cs => (l, r) :: spawnRequests cs
  | _ :: cs => spawnRequests cs

/-- The delays of the `SetTimer` requests of a run, in order. -/
def timerRequests : List (Call K) → List K
  | [] => []
  | Call.SetTimer r :: cs => r :: timerRequests cs
  | _ :: cs => timerRequests cs

/-- The `PlaySoundAtLocation` requests of a run, in order. -/
def soundRequests : List (Call K) → List (Nat × FVector K)
  | [] => []
  | Call.PlaySoundAtLocation s l :: cs => (s, l) :: soundRequests cs
  | _ :: cs => soundRequests cs

/-- The move requests that displace the pawn by each vector of the list and,
right after each, the mirror by its negation. -/
def mirroredMoves : List (FVector K) → List (Target × FVector K)
  | [] => []
  | d :: ds => (Target.primary, d) :: (Target.mirror, d.scale (-1)) :: mirroredMoves ds

/-- The sum of a list of displacements. -/
def sumDeltas : List (FVector K) → FVector K
  | [] => FVector.ZeroVector
  | d :: ds => d.add (sumDeltas ds)

end Pawn

/-! ## Concrete data over `ℚ` -/

/-- A rational table of the engine's math functions that is exact on
axis-aligned input: square roots of 0 and 1, the angles of the four axis
directions, sines and cosines of multiples of 90 degrees. -/
def axisFMath : FMath ℚ where
  InvSqrt := fun _ => 1
  Sqrt := fun v => v
  Atan2Deg := fun Y X =>
    if Y = 0 then (if X < 0 then 180 else 0) else if 0 < Y then 90 else -90
  SinDeg := fun a => if a = 90 then 1 else if a = -90 then -1 else 0
  CosDeg := fun a => if a = 0 then 1 else if a = 180 then -1 else if a = -180 then -1 else 0

/-- The pawn as constructed, with a sound asset and a mirror pawn assigned. -/
def samplePawn : AGMTK2021Pawn ℚ := AGMTK2021Pawn.construct (some 7) (some 1)

/-- A hit result of no collision. -/
def noHit : FHitResult ℚ := FHitResult.init 1

/-- A blocking hit halfway through a move along `+X`, on an oblique wall of
unit normal `(-3/5, 4/5, 0)`. -/
def wallHit : FHitResult ℚ :=
  { bBlockingHit := true, bStartPenetrating := false, Time := 1 / 2, Normal := ⟨-3 / 5, 4 / 5, 0⟩ }

/-- A blocking hit a quarter through a move along `-X`, on an oblique wall of
unit normal `(4/5, 3/5, 0)`. -/
def mirrorWallHit : FHitResult ℚ :=
  { bBlockingHit := true, bStartPenetrating := false, Time := 1 / 4, Normal := ⟨4 / 5, 3 / 5, 0⟩ }

/-- A tick with no input: pawn at `(300, 0, 0)`, mirror at `(-300, 0, 0)`, a
valid world, no collision. -/
def idleContext : TickContext ℚ :=
  { ForwardValue := 0, RightValue := 0, FireForwardValue := 0, FireRightValue := 0
    PrimaryHit := noHit, MirrorHit := noHit
    ActorLocation := ⟨300, 0, 0⟩, MirrorActorLocation := ⟨-300, 0, 0⟩
    World := some () }

/-- A tick with the move stick pushed forward, and the given sweep results. -/
def forwardContext (PrimaryHit MirrorHit : FHitResult ℚ) : TickContext ℚ :=
  { idleContext with ForwardValue := 1, PrimaryHit := PrimaryHit, MirrorHit := MirrorHit }

/-- A tick with the fire stick pushed forward, and the given world pointer. -/
def fireContext (World : Option Unit) : TickContext ℚ :=
  { idleContext with FireForwardValue := 1, World := World }

/-! ## Lemmas shared by the theorems -/

section Requests

variable {K : Type}

theorem moveRequests_append (a b : List (Call K)) :
    moveRequests (a ++ b) = moveRequests a ++ moveRequests b := by
  induction a with
  | nil => rfl
  | cons c cs ih => cases c <;> simp [moveRequests, ih]

theorem spawnRequests_append (a b : List (Call K)) :
    spawnRequests (a ++ b) = spawnRequests a ++ spawnRequests b := by
  induction a with
  | nil => rfl
  | cons c cs ih => cases c <;> simp [spawnRequests, ih]

theorem timerRequests_append (a b : List (Call K)) :
    timerRequests (a ++ b) = timerRequests a ++ timerRequests b := by
  induction a with
  | nil => rfl
  | cons c cs ih => cases c <;> simp [timerRequests, ih]

theorem soundRequests_append (a b : List (Call K)) :
    soundRequests (a ++ b) = soundRequests a ++ soundRequests b := by
  induction a with
  | nil => rfl
  | cons c cs ih => cases c <;> simp [soundRequests, ih]

end Requests

section Lemmas

variable {K : Type} [LinearOrderedField K]

theorem one_not_lt_kinda_small : ¬ ((1 : K) < KINDA_SMALL_NUMBER) := by
  unfold KINDA_SMALL_NUMBER
  norm_num

/-- The clamp of line 70, by cases on the squared size of the input. -/
theorem moveDirection_eq (InvSqrt : K → K) (F R : K) :
    MoveDirection InvSqrt F R =
      if 1 < F * F + R * R then
        ⟨F * InvSqrt (F * F + R * R), R * InvSqrt (F * F + R * R), 0⟩
      else ⟨F, R, 0⟩ := by
  simp [MoveDirection, FVector.GetClampedToMaxSize, one_not_lt_kinda_small,
    FVector.SizeSquared]

/-- A vector has squared size zero only when it is the zero vector. -/
theorem sizeSquared_eq_zero_iff (V : FVector K) :
    V.SizeSquared = 0 ↔ V = FVector.ZeroVector := by
  constructor
  · intro h
    unfold FVector.SizeSquared at h
    have hx := mul_self_nonneg V.X
    have hy := mul_self_nonneg V.Y
    have hz := mul_self_nonneg V.Z
    have hx0 : V.X * V.X = 0 := by linarith
    have hy0 : V.Y * V.Y = 0 := by linarith
    have hz0 : V.Z * V.Z = 0 := by linarith
    ext
    · simpa [FVector.ZeroVector] using mul_self_eq_zero.mp hx0
    · simpa [FVector.ZeroVector] using mul_self_eq_zero.mp hy0
    · simpa [FVector.ZeroVector] using mul_self_eq_zero.mp hz0
  · intro h
    simp [h, FVector.SizeSquared, FVector.ZeroVector]

/-- `FireShot` while cooling down does nothing. -/
theorem fireShot_cooling (E : FMath K) (P : AGMTK2021Pawn K) (C : TickContext K)
    (ActorLocation FireDirection : FVector K) (mirror : Bool) (h : P.bCanFire = false) :
    FireShot E P C ActorLocation FireDirection mirror = ⟨[], .ok (false, P)⟩ := by
  simp [FireShot, h, Outcome.done]

/-- `FireShot` with a direction of squared size zero does nothing. -/
theorem fireShot_quiescent (E : FMath K) (P : AGMTK2021Pawn K) (C : TickContext K)
    (ActorLocation FireDirection : FVector K) (mirror : Bool)
    (h : FireDirection.SizeSquared = 0) :
    FireShot E P C ActorLocation FireDirection mirror = ⟨[], .ok (false, P)⟩ := by
  simp [FireShot, h, Outcome.done]

theorem fireShot_fires_with_world (E : FMath K) (P : AGMTK2021Pawn K) (C : TickContext K)
    (ActorLocation FireDirection : FVector K) (mirror : Bool) (w : Unit)
    (hReady : P.bCanFire = true) (hDir : 0 < FireDirection.SizeSquared)
    (hWorld : C.World = some w) :
    FireShot E P C ActorLocation FireDirection mirror =
      ⟨Call.SpawnActor
          (ActorLocation.add ((FireDirection.Rotation E).RotateVector E P.GunOffset))
          (FireDirection.Rotation E) ::
        (if mirror then []
         else Call.SetTimer P.FireRate ::
           (match P.FireSound with
            | some Sound => [Call.PlaySoundAtLocation Sound C.ActorLocation]
            | none => [])),
       .ok (true, P)⟩ := by
  cases mirror <;> cases hs : P.FireSound <;>
    simp [FireShot, hReady, hDir, hWorld, hs, Outcome.bind, Outcome.done, Outcome.call,
      derefWorld]

theorem fireShot_fires_without_world (E : FMath K) (P : AGMTK2021Pawn K) (C : TickContext K)
    (ActorLocation FireDirection : FVector K) (mirror : Bool)
    (hReady : P.bCanFire = true) (hDir : 0 < FireDirection.SizeSquared)
    (hWorld : C.World = none) :
    FireShot E P C ActorLocation FireDirection mirror =
      ⟨[], if mirror then .ok (true, P) else .error Fault.NullWorld⟩ := by
  cases mirror <;>
    simp [FireShot, hReady, hDir, hWorld, Outcome.bind, Outcome.done, Outcome.fault,
      derefWorld]

/-- `FireShot` never changes the pawn. -/
theorem fireShot_pawn (E : FMath K) (P : AGMTK2021Pawn K) (C : TickContext K)
    (ActorLocation FireDirection : FVector K) (mirror : Bool) (r : Bool × AGMTK2021Pawn K)
    (h : (FireShot E P C ActorLocation FireDirection mirror).result = .ok r) :
    r.2 = P ∧ (r.1 = true ↔ (P.bCanFire = true ∧ 0 < FireDirection.SizeSquared)) := by
  by_cases hReady : P.bCanFire = true
  · by_cases hDir : 0 < FireDirection.SizeSquared
    · cases hW : C.World with
      | none =>
        rw [fireShot_fires_without_world E P C _ _ mirror hReady hDir hW] at h
        cases mirror
        · simp at h
        · simp at h
          subst h
          simp [hReady, hDir]
      | some w =>
        rw [fireShot_fires_with_world E P C _ _ mirror w hReady hDir hW] at h
        simp at h
        subst h
        simp [hReady, hDir]
    · have h0 : FireDirection.SizeSquared = 0 := by
        have : 0 ≤ FireDirection.SizeSquared := by
          unfold FVector.SizeSquared
          nlinarith [mul_self_nonneg FireDirection.X, mul_self_nonneg FireDirection.Y,
            mul_self_nonneg FireDirection.Z]
        exact le_antisymm (not_lt.mp hDir) this
      rw [fireShot_quiescent E P C _ _ mirror h0] at h
      simp at h
      subst h
      simp [hDir]
  · have hc : P.bCanFire = false := by simpa using hReady
    rw [fireShot_cooling E P C _ _ mirror hc] at h
    simp at h
    subst h
    simp [hc]

/-- The calls of the move part of `Tick` when the mirror reference is set. -/
theorem tickMove_eq (E : FMath K) (P : AGMTK2021Pawn K) (C : TickContext K)
    (Movement : FVector K) (m : Nat) (hMirror : P.MirrorPawn = some m) :
    TickMove E P C Movement =
      ⟨if 0 < Movement.SizeSquared then
          Call.MoveComponent Target.primary Movement (Movement.Rotation E) true ::
          Call.MoveComponent Target.mirror (Movement.scale (-1))
            ((Movement.Rotation E).scale (-1)) true ::
          (if C.MirrorHit.IsValidBlockingHit = true then
            [Call.MoveComponent Target.primary (Deflection E.InvSqrt Movement C.MirrorHit)
                (Movement.Rotation E) true,
             Call.MoveComponent Target.mirror
                ((Deflection E.InvSqrt Movement C.MirrorHit).scale (-1))
                ((Movement.Rotation E).scale (-1)) true]
          else [])
        else [],
       .ok ()⟩ := by
  by_cases hM : 0 < Movement.SizeSquared <;> by_cases hH : C.MirrorHit.IsValidBlockingHit = true <;>
    simp [TickMove, hM, hH, hMirror, MoveComponent, derefMirrorPawn, Outcome.bind, Outcome.done,
      Outcome.call]

/-- The squared size of a vector is not negative. -/
theorem sizeSquared_nonneg (V : FVector K) : 0 ≤ V.SizeSquared := by
  unfold FVector.SizeSquared
  nlinarith [mul_self_nonneg V.X, mul_self_nonneg V.Y, mul_self_nonneg V.Z]

/-- The mirror fire direction of line 100 has the size of the fire direction. -/
theorem mirrorFireDirection_sizeSquared (a b : K) :
    (FVector.mk (a * -1) (b * -1) 0).SizeSquared = (FVector.mk a b 0).SizeSquared := by
  simp [FVector.SizeSquared]

/-- A tick in which the primary shot does not fire: only the move part makes
calls and the pawn is unchanged. -/
theorem tick_no_shot (E : FMath K) (P : AGMTK2021Pawn K) (C : TickContext K) (DeltaSeconds : K)
    (m : Nat) (hMirror : P.MirrorPawn = some m)
    (hNo : P.bCanFire = false ∨ (FVector.mk C.FireForwardValue C.FireRightValue 0).SizeSquared = 0) :
    Tick E P C DeltaSeconds =
      ⟨(TickMove E P C (TickMovement E P C DeltaSeconds)).calls, .ok P⟩ := by
  have hp : ∀ loc mirror, FireShot E P C loc ⟨C.FireForwardValue, C.FireRightValue, 0⟩ mirror =
      ⟨[], .ok (false, P)⟩ := by
    intro loc mirror
    rcases hNo with h | h
    · exact fireShot_cooling E P C _ _ mirror h
    · exact fireShot_quiescent E P C _ _ mirror h
  have hq : ∀ loc mirror,
      FireShot E P C loc ⟨C.FireForwardValue * -1, C.FireRightValue * -1, 0⟩ mirror =
      ⟨[], .ok (false, P)⟩ := by
    intro loc mirror
    rcases hNo with h | h
    · exact fireShot_cooling E P C _ _ mirror h
    · exact fireShot_quiescent E P C _ _ mirror
        ((mirrorFireDirection_sizeSquared _ _).trans h)
  unfold Tick
  simp only [← TickMovement.eq_1]
  rw [tickMove_eq E P C _ m hMirror]
  simp only [hp, hq, Outcome.bind, Outcome.done, derefMirrorPawn, hMirror, List.append_nil]
  simp

/-- A tick in which the primary shot fires, with a valid world. -/
theorem tick_shot (E : FMath K) (P : AGMTK2021Pawn K) (C : TickContext K) (DeltaSeconds : K)
    (m : Nat) (w : Unit) (hMirror : P.MirrorPawn = some m) (hWorld : C.World = some w)
    (hReady : P.bCanFire = true)
    (hDir : 0 < (FVector.mk C.FireForwardValue C.FireRightValue 0).SizeSquared) :
    Tick E P C DeltaSeconds =
      ⟨(TickMove E P C (TickMovement E P C DeltaSeconds)).calls ++
        ((FireShot E P C C.ActorLocation ⟨C.FireForwardValue, C.FireRightValue, 0⟩ false).calls ++
         (FireShot E P C C.MirrorActorLocation
            ⟨C.FireForwardValue * -1, C.FireRightValue * -1, 0⟩ true).calls),
       .ok { P with bCanFire := false }⟩ := by
  have hDir2 : 0 < (FVector.mk (C.FireForwardValue * -1) (C.FireRightValue * -1) 0).SizeSquared := by
    rw [mirrorFireDirection_sizeSquared]
    exact hDir
  unfold Tick
  simp only [← TickMovement.eq_1, FireShot_mirror_default]
  rw [tickMove_eq E P C _ m hMirror]
  have h1 := fireShot_fires_with_world E P C C.ActorLocation _ false w hReady hDir hWorld
  have h2 := fireShot_fires_with_world E P C C.MirrorActorLocation _ true w hReady hDir2 hWorld
  simp only [h1, h2, Outcome.bind, Outcome.done, derefMirrorPawn, hMirror, List.append_nil]
  simp

/-- A tick in which the primary shot fires while the world pointer is null:
the run stops at the dereference of line 126. -/
theorem tick_shot_no_world (E : FMath K) (P : AGMTK2021Pawn K) (C : TickContext K)
    (DeltaSeconds : K) (m : Nat) (hMirror : P.MirrorPawn = some m) (hWorld : C.World = none)
    (hReady : P.bCanFire = true)
    (hDir : 0 < (FVector.mk C.FireForwardValue C.FireRightValue 0).SizeSquared) :
    Tick E P C DeltaSeconds =
      ⟨(TickMove E P C (TickMovement E P C DeltaSeconds)).calls, .error Fault.NullWorld⟩ := by
  unfold Tick
  simp only [← TickMovement.eq_1, FireShot_mirror_default]
  rw [tickMove_eq E P C _ m hMirror]
  rw [fireShot_fires_without_world E P C _ _ false hReady hDir hWorld]
  simp [Outcome.bind]

/-- `FireShot` requests no move. -/
theorem fireShot_moveRequests (E : FMath K) (P : AGMTK2021Pawn K) (C : TickContext K)
    (ActorLocation FireDirection : FVector K) (mirror : Bool) :
    moveRequests (FireShot E P C ActorLocation FireDirection mirror).calls = [] := by
  by_cases hReady : P.bCanFire = true
  · by_cases hDir : 0 < FireDirection.SizeSquared
    · cases hW : C.World with
      | none =>
        rw [fireShot_fires_without_world E P C _ _ mirror hReady hDir hW]
        rfl
      | some w =>
        rw [fireShot_fires_with_world E P C _ _ mirror w hReady hDir hW]
        cases mirror <;> cases P.FireSound <;> simp [moveRequests]
    · rw [fireShot_quiescent E P C _ _ mirror
        (le_antisymm (not_lt.mp hDir) (sizeSquared_nonneg _))]
      rfl
  · rw [fireShot_cooling E P C _ _ mirror (by simpa using hReady)]
    rfl

/-- The move part of `Tick` requests moves only. -/
theorem tickMove_other_requests (E : FMath K) (P : AGMTK2021Pawn K) (C : TickContext K)
    (Movement : FVector K) :
    spawnRequests (TickMove E P C Movement).calls = [] ∧
      timerRequests (TickMove E P C Movement).calls = [] ∧
      soundRequests (TickMove E P C Movement).calls = [] := by
  cases hm : P.MirrorPawn with
  | none =>
    by_cases hM : 0 < Movement.SizeSquared <;>
      simp [TickMove, hM, hm, MoveComponent, derefMirrorPawn, Outcome.bind, Outcome.done,
        Outcome.fault, spawnRequests, timerRequests, soundRequests]
  | some m =>
    rw [tickMove_eq E P C Movement m hm]
    by_cases hM : 0 < Movement.SizeSquared <;>
      by_cases hH : C.MirrorHit.IsValidBlockingHit = true <;>
      simp [hM, hH, spawnRequests, timerRequests, soundRequests]

/-- The move requests of a whole tick are those of its move part. -/
theorem tick_moveRequests (E : FMath K) (P : AGMTK2021Pawn K) (C : TickContext K)
    (DeltaSeconds : K) (m : Nat) (hMirror : P.MirrorPawn = some m) :
    moveRequests (Tick E P C DeltaSeconds).calls =
      moveRequests (TickMove E P C (TickMovement E P C DeltaSeconds)).calls := by
  by_cases hReady : P.bCanFire = true
  · by_cases hDir : 0 < (FVector.mk C.FireForwardValue C.FireRightValue 0).SizeSquared
    · cases hW : C.World with
      | none => rw [tick_shot_no_world E P C DeltaSeconds m hMirror hW hReady hDir]
      | some w =>
        rw [tick_shot E P C DeltaSeconds m w hMirror hW hReady hDir]
        simp [moveRequests_append, fireShot_moveRequests]
    · rw [tick_no_shot E P C DeltaSeconds m hMirror
        (Or.inr (le_antisymm (not_lt.mp hDir) (sizeSquared_nonneg _)))]
  · rw [tick_no_shot E P C DeltaSeconds m hMirror (Or.inl (by simpa using hReady))]

/-- The move requests of the move part of `Tick`: none, the move, or the move
and the deflection, each with its negation for the mirror. -/
theorem tickMove_moveRequests (E : FMath K) (P : AGMTK2021Pawn K) (C : TickContext K)
    (Movement : FVector K) (m : Nat) (hMirror : P.MirrorPawn = some m) :
    moveRequests (TickMove E P C Movement).calls =
      mirroredMoves
        (if 0 < Movement.SizeSquared then
          Movement ::
            (if C.MirrorHit.IsValidBlockingHit = true then
              [Deflection E.InvSqrt Movement C.MirrorHit]
            else [])
        else []) := by
  rw [tickMove_eq E P C Movement m hMirror]
  by_cases hM : 0 < Movement.SizeSquared <;>
    by_cases hH : C.MirrorHit.IsValidBlockingHit = true <;>
    simp [hM, hH, moveRequests, mirroredMoves]

/-- The displacements of `mirroredMoves` add up to zero. -/
theorem sumDeltas_mirroredMoves (ds : List (FVector K)) :
    sumDeltas ((mirroredMoves ds).map Prod.snd) = FVector.ZeroVector := by
  induction ds with
  | nil => rfl
  | cons d ds ih =>
    simp only [mirroredMoves, List.map_cons, sumDeltas, ih]
    ext <;> simp [FVector.add, FVector.scale, FVector.ZeroVector]

end Lemmas

/-! ## The theorems -/

section Theorems

variable {K : Type} [LinearOrderedField K]

/-- C4: while the cooldown is Cooling-down (`bCanFire` false), `FireShot` with a
fire direction of non-zero size returns false, requests no spawn, no timer and
no sound, and returns the pawn unchanged (so `bCanFire` is still false), for
the primary call as for the mirror call. -/
theorem fireShot_cooling_down (E : FMath K) (P : AGMTK2021Pawn K) (C : TickContext K)
    (ActorLocation FireDirection : FVector K) (mirror : Bool)
    (hCooling : P.bCanFire = false) (_hDir : 0 < FireDirection.SizeSquared) :
    (FireShot E P C ActorLocation FireDirection mirror).result = .ok (false, P) ∧
      (FireShot E P C ActorLocation FireDirection mirror).calls = [] ∧
      (∀ r, (FireShot E P C ActorLocation FireDirection mirror).result = .ok r →
        r.1 = false ∧ r.2.bCanFire = false) := by
  rw [fireShot_cooling E P C ActorLocation FireDirection mirror hCooling]
  refine ⟨rfl, rfl, ?_⟩
  intro r hr
  cases hr
  exact ⟨rfl, hCooling⟩

/-- C2: in every tick of a pawn whose mirror reference is set, whatever the
axis values, the elapsed time, the sweep results and the world pointer, the
move requests are those of a list of displacements (none, the movement, or the
movement and the deflection), each requested for the primary and, right after,
negated, for the mirror; the requested displacements of the tick add up to the
zero vector. -/
theorem mirror_displacement_negates_primary (E : FMath K) (P : AGMTK2021Pawn K)
    (C : TickContext K) (DeltaSeconds : K) (m : Nat) (hMirror : P.MirrorPawn = some m) :
    ∃ ds : List (FVector K),
      (ds = [] ∨ ds = [TickMovement E P C DeltaSeconds] ∨
        ds = [TickMovement E P C DeltaSeconds,
              Deflection E.InvSqrt (TickMovement E P C DeltaSeconds) C.MirrorHit]) ∧
      moveRequests (Tick E P C DeltaSeconds).calls = mirroredMoves ds ∧
      sumDeltas ((moveRequests (Tick E P C DeltaSeconds).calls).map Prod.snd) =
        FVector.ZeroVector := by
  refine ⟨_, ?_, (tick_moveRequests E P C DeltaSeconds m hMirror).trans
    (tickMove_moveRequests E P C _ m hMirror), ?_⟩
  · by_cases hM : 0 < (TickMovement E P C DeltaSeconds).SizeSquared <;>
      by_cases hH : C.MirrorHit.IsValidBlockingHit = true <;> simp [hM, hH]
  · rw [tick_moveRequests E P C DeltaSeconds m hMirror, tickMove_moveRequests E P C _ m hMirror]
    exact sumDeltas_mirroredMoves _

/-- C2 at a tick that moves and deflects: stick forward, the mirror's sweep
blocked. -/
theorem mirror_displacement_negates_primary_witness :
    samplePawn.MirrorPawn = some 1 ∧
    ∃ ds : List (FVector ℚ),
      (ds = [] ∨ ds = [TickMovement axisFMath samplePawn (forwardContext noHit mirrorWallHit) (1 / 10)] ∨
        ds = [TickMovement axisFMath samplePawn (forwardContext noHit mirrorWallHit) (1 / 10),
              Deflection axisFMath.InvSqrt
                (TickMovement axisFMath samplePawn (forwardContext noHit mirrorWallHit) (1 / 10))
                (forwardContext noHit mirrorWallHit).MirrorHit]) ∧
      moveRequests (Tick axisFMath samplePawn (forwardContext noHit mirrorWallHit) (1 / 10)).calls =
        mirroredMoves ds ∧
      sumDeltas ((moveRequests
          (Tick axisFMath samplePawn (forwardContext noHit mirrorWallHit) (1 / 10)).calls).map
            Prod.snd) = FVector.ZeroVector :=
  ⟨rfl, mirror_displacement_negates_primary axisFMath samplePawn
    (forwardContext noHit mirrorWallHit) (1 / 10) 1 rfl⟩

/-- C3: `FireShot` with a fire direction of squared size zero returns false,
makes no engine call (no spawn, no timer, no sound) and leaves the pawn as it
was, for every pawn, location, world pointer and value of `mirror`; and a tick
with both fire axes at zero requests no spawn, no timer and no sound, and, for
a pawn whose mirror reference is set, returns the pawn unchanged (so the
cooldown flag keeps its value). -/
theorem no_shot_without_fire_direction (E : FMath K) (P : AGMTK2021Pawn K) (C : TickContext K)
    (ActorLocation FireDirection : FVector K) (mirror : Bool) (DeltaSeconds : K)
    (hDir : FireDirection.SizeSquared = 0)
    (hFireForward : C.FireForwardValue = 0) (hFireRight : C.FireRightValue = 0) :
    FireShot E P C ActorLocation FireDirection mirror = ⟨[], .ok (false, P)⟩ ∧
      spawnRequests (Tick E P C DeltaSeconds).calls = [] ∧
      timerRequests (Tick E P C DeltaSeconds).calls = [] ∧
      soundRequests (Tick E P C DeltaSeconds).calls = [] ∧
      (∀ m, P.MirrorPawn = some m → (Tick E P C DeltaSeconds).result = .ok P) := by
  have hz : (FVector.mk C.FireForwardValue C.FireRightValue 0).SizeSquared = 0 := by
    simp [FVector.SizeSquared, hFireForward, hFireRight]
  have hmove := tickMove_other_requests E P C (TickMovement E P C DeltaSeconds)
  refine ⟨fireShot_quiescent E P C _ _ mirror hDir, ?_⟩
  cases hm : P.MirrorPawn with
  | some m =>
    rw [tick_no_shot E P C DeltaSeconds m hm (Or.inr hz)]
    exact ⟨hmove.1, hmove.2.1, hmove.2.2, fun _ _ => rfl⟩
  | none =>
    have hT : (Tick E P C DeltaSeconds).calls =
        (TickMove E P C (TickMovement E P C DeltaSeconds)).calls := by
      unfold Tick
      simp only [← TickMovement.eq_1, fireShot_quiescent E P C _ _ _ hz]
      by_cases hM : 0 < (TickMovement E P C DeltaSeconds).SizeSquared <;>
        simp [TickMove, hM, hm, MoveComponent, derefMirrorPawn, Outcome.bind, Outcome.done,
          Outcome.fault]
    rw [hT]
    exact ⟨hmove.1, hmove.2.1, hmove.2.2, fun m h => by simp at h⟩

/-- C3 at the idle tick of the constructed pawn. -/
theorem no_shot_without_fire_direction_witness :
    FireShot axisFMath samplePawn idleContext ⟨300, 0, 0⟩ ⟨0, 0, 0⟩ false =
        ⟨[], .ok (false, samplePawn)⟩ ∧
      spawnRequests (Tick axisFMath samplePawn idleContext (1 / 10)).calls = [] ∧
      timerRequests (Tick axisFMath samplePawn idleContext (1 / 10)).calls = [] ∧
      soundRequests (Tick axisFMath samplePawn idleContext (1 / 10)).calls = [] ∧
      (∀ m, samplePawn.MirrorPawn = some m →
        (Tick axisFMath samplePawn idleContext (1 / 10)).result = .ok samplePawn) :=
  no_shot_without_fire_direction axisFMath samplePawn idleContext ⟨300, 0, 0⟩ ⟨0, 0, 0⟩ false
    (1 / 10) (by simp [FVector.SizeSquared]) rfl rfl

/-- C4 at the constructed pawn put in cooldown, fire stick forward. -/
theorem fireShot_cooling_down_witness :
    (FireShot axisFMath { samplePawn with bCanFire := false } (fireContext (some ()))
        ⟨300, 0, 0⟩ ⟨1, 0, 0⟩ false).result =
        .ok (false, { samplePawn with bCanFire := false }) ∧
      (FireShot axisFMath { samplePawn with bCanFire := false } (fireContext (some ()))
        ⟨300, 0, 0⟩ ⟨1, 0, 0⟩ false).calls = [] ∧
      (∀ r, (FireShot axisFMath { samplePawn with bCanFire := false } (fireContext (some ()))
          ⟨300, 0, 0⟩ ⟨1, 0, 0⟩ false).result = .ok r →
        r.1 = false ∧ r.2.bCanFire = false) :=
  fireShot_cooling_down axisFMath { samplePawn with bCanFire := false } (fireContext (some ()))
    ⟨300, 0, 0⟩ ⟨1, 0, 0⟩ false rfl (by simp [FVector.SizeSquared])

/-- C5: with `MoveSpeed = 1000` (the constructor's value), forward = 1,
right = 0 and `DeltaSeconds = 1/10`, the clamp returns the input `(1, 0, 0)`
unchanged, the movement is `(100, 0, 0)`, and the tick's first two move
requests are `(100, 0, 0)` for the primary and `(-100, 0, 0)` for the mirror;
they are the only ones unless the sweep result left in `Hit` is a blocking hit. -/
theorem forward_step_moves_hundred (E : FMath K) (P : AGMTK2021Pawn K) (C : TickContext K)
    (m : Nat) (hSpeed : P.MoveSpeed = 1000) (hMirror : P.MirrorPawn = some m)
    (hForward : C.ForwardValue = 1) (hRight : C.RightValue = 0) :
    MoveDirection E.InvSqrt C.ForwardValue C.RightValue = ⟨1, 0, 0⟩ ∧
      TickMovement E P C (1 / 10) = ⟨100, 0, 0⟩ ∧
      ∃ rest, moveRequests (Tick E P C (1 / 10)).calls =
          (Target.primary, ⟨100, 0, 0⟩) :: (Target.mirror, ⟨-100, 0, 0⟩) :: rest ∧
        (C.MirrorHit.IsValidBlockingHit = false → rest = []) := by
  have hdir : MoveDirection E.InvSqrt C.ForwardValue C.RightValue = ⟨1, 0, 0⟩ := by
    rw [moveDirection_eq, hForward, hRight]
    simp
  have hmov : TickMovement E P C (1 / 10) = ⟨100, 0, 0⟩ := by
    unfold TickMovement
    rw [hdir, hSpeed]
    ext <;> norm_num [FVector.scale]
  have hpos : 0 < (FVector.mk (100 : K) 0 0).SizeSquared := by
    simp [FVector.SizeSquared]
  refine ⟨hdir, hmov, ?_⟩
  rw [tick_moveRequests E P C _ m hMirror, tickMove_moveRequests E P C _ m hMirror, hmov,
    if_pos hpos]
  have hneg : (FVector.mk (100 : K) 0 0).scale (-1) = ⟨-100, 0, 0⟩ := by
    simp [FVector.scale]
  refine ⟨mirroredMoves (if C.MirrorHit.IsValidBlockingHit = true then
      [Deflection E.InvSqrt ⟨100, 0, 0⟩ C.MirrorHit] else []), ?_, ?_⟩
  · simp only [mirroredMoves, hneg]
  · intro hH
    simp [hH, mirroredMoves]

/-- C5 at the constructed pawn, no collision. -/
theorem forward_step_moves_hundred_witness :
    MoveDirection axisFMath.InvSqrt (forwardContext noHit noHit).ForwardValue
        (forwardContext noHit noHit).RightValue = ⟨1, 0, 0⟩ ∧
      TickMovement axisFMath samplePawn (forwardContext noHit noHit) (1 / 10) = ⟨100, 0, 0⟩ ∧
      ∃ rest, moveRequests (Tick axisFMath samplePawn (forwardContext noHit noHit) (1 / 10)).calls =
          (Target.primary, ⟨100, 0, 0⟩) :: (Target.mirror, ⟨-100, 0, 0⟩) :: rest ∧
        ((forwardContext noHit noHit).MirrorHit.IsValidBlockingHit = false → rest = []) :=
  forward_step_moves_hundred axisFMath samplePawn (forwardContext noHit noHit) 1 rfl rfl rfl rfl

/-- C10: for every movement and every hit whose 2D-normalised normal `n` is a
unit vector, the deflection of lines 83-84 is the plane projection of the
remaining displacement `Movement * (1 - Time)`, componentwise
`(1 - Time) * (Movement - (Movement . n) n)`, and its component along `n` is
zero. -/
theorem deflection_is_plane_projection (InvSqrt : K → K) (Movement : FVector K)
    (Hit : FHitResult K)
    (hUnit : (Hit.Normal.GetSafeNormal2D InvSqrt SMALL_NUMBER).SizeSquared = 1) :
    Deflection InvSqrt Movement Hit =
        FVector.VectorPlaneProject (Movement.scale (1 - Hit.Time))
          (Hit.Normal.GetSafeNormal2D InvSqrt SMALL_NUMBER) ∧
      Deflection InvSqrt Movement Hit =
        ⟨(1 - Hit.Time) * (Movement.X -
            Movement.dot (Hit.Normal.GetSafeNormal2D InvSqrt SMALL_NUMBER) *
              (Hit.Normal.GetSafeNormal2D InvSqrt SMALL_NUMBER).X),
         (1 - Hit.Time) * (Movement.Y -
            Movement.dot (Hit.Normal.GetSafeNormal2D InvSqrt SMALL_NUMBER) *
              (Hit.Normal.GetSafeNormal2D InvSqrt SMALL_NUMBER).Y),
         (1 - Hit.Time) * (Movement.Z -
            Movement.dot (Hit.Normal.GetSafeNormal2D InvSqrt SMALL_NUMBER) *
              (Hit.Normal.GetSafeNormal2D InvSqrt SMALL_NUMBER).Z)⟩ ∧
      (Deflection InvSqrt Movement Hit).dot
        (Hit.Normal.GetSafeNormal2D InvSqrt SMALL_NUMBER) = 0 := by
  have hD : Deflection InvSqrt Movement Hit =
      (FVector.VectorPlaneProject Movement
        (Hit.Normal.GetSafeNormal2D InvSqrt SMALL_NUMBER)).scale (1 - Hit.Time) := rfl
  rw [hD]
  generalize Hit.Normal.GetSafeNormal2D InvSqrt SMALL_NUMBER = n at hUnit
  simp only [FVector.SizeSquared] at hUnit
  refine ⟨?_, ?_, ?_⟩
  · simp only [FVector.VectorPlaneProject, FVector.ProjectOnToNormal, FVector.sub, FVector.scale,
      FVector.dot]
    ext <;> simp only <;> ring
  · simp only [FVector.VectorPlaneProject, FVector.ProjectOnToNormal, FVector.sub, FVector.scale,
      FVector.dot]
    ext <;> simp only <;> ring
  · simp only [FVector.VectorPlaneProject, FVector.ProjectOnToNormal, FVector.sub, FVector.scale,
      FVector.dot]
    linear_combination
      (-(1 - Hit.Time) * (Movement.X * n.X + Movement.Y * n.Y + Movement.Z * n.Z)) * hUnit

/-- C10 at a move along `+X` stopped halfway by the oblique wall of unit normal
`(-3/5, 4/5, 0)`. -/
theorem deflection_is_plane_projection_witness :
    (wallHit.Normal.GetSafeNormal2D axisFMath.InvSqrt SMALL_NUMBER).SizeSquared = 1 ∧
      Deflection axisFMath.InvSqrt ⟨100, 0, 0⟩ wallHit = ⟨32, 24, 0⟩ ∧
      (Deflection axisFMath.InvSqrt ⟨100, 0, 0⟩ wallHit).dot
        (wallHit.Normal.GetSafeNormal2D axisFMath.InvSqrt SMALL_NUMBER) = 0 := by
  have hn : wallHit.Normal.GetSafeNormal2D axisFMath.InvSqrt SMALL_NUMBER = ⟨-3 / 5, 4 / 5, 0⟩ := by
    simp [FVector.GetSafeNormal2D, wallHit]
    norm_num
  have hu : (wallHit.Normal.GetSafeNormal2D axisFMath.InvSqrt SMALL_NUMBER).SizeSquared = 1 := by
    rw [hn]
    simp [FVector.SizeSquared]
    norm_num
  have h := deflection_is_plane_projection axisFMath.InvSqrt ⟨100, 0, 0⟩ wallHit hu
  refine ⟨hu, ?_, h.2.2⟩
  rw [h.2.1, hn]
  simp [FVector.dot, wallHit]
  norm_num

/-- C6: from cooldown Ready, with a valid world, the mirror reference set and
`GunOffset = (90, 0, 0)` (the constructor's value), a tick with fire-forward = 1
and fire-right = 0 requests exactly two spawns, one at the pawn's location plus
`(90, 0, 0)` with the zero rotation (facing `+X`) and one at the mirror's
location plus `(-90, 0, 0)` with yaw 180 (facing `-X`); it requests exactly one
timer, of delay `FireRate`; it returns the pawn with `bCanFire` false and
nothing else changed; and `ShotTimerExpired` then sets `bCanFire` back to true
and changes nothing else, which gives back the pawn the tick started from.
The engine's math functions are taken exact on the X axis. -/
theorem fire_forward_end_to_end (E : FMath K) (P : AGMTK2021Pawn K) (C : TickContext K)
    (DeltaSeconds : K) (m : Nat) (w : Unit) (hExact : E.ExactOnXAxis)
    (hReady : P.bCanFire = true) (hGun : P.GunOffset = ⟨90, 0, 0⟩)
    (hMirror : P.MirrorPawn = some m) (hWorld : C.World = some w)
    (hFireForward : C.FireForwardValue = 1) (hFireRight : C.FireRightValue = 0) :
    spawnRequests (Tick E P C DeltaSeconds).calls =
        [(C.ActorLocation.add ⟨90, 0, 0⟩, ⟨0, 0, 0⟩),
         (C.MirrorActorLocation.add ⟨-90, 0, 0⟩, ⟨0, 180, 0⟩)] ∧
      timerRequests (Tick E P C DeltaSeconds).calls = [P.FireRate] ∧
      (Tick E P C DeltaSeconds).result = .ok { P with bCanFire := false } ∧
      ShotTimerExpired { P with bCanFire := false } = { P with bCanFire := true } ∧
      ShotTimerExpired { P with bCanFire := false } = P := by
  obtain ⟨hSqrt, hAtanP, hAtanN, hSin0, hCos0, hSin180, hCos180⟩ := hExact
  have hDir : 0 < (FVector.mk C.FireForwardValue C.FireRightValue 0).SizeSquared := by
    simp [FVector.SizeSquared, hFireForward, hFireRight]
  have hDir2 : 0 < (FVector.mk (C.FireForwardValue * -1) (C.FireRightValue * -1) 0).SizeSquared := by
    rw [mirrorFireDirection_sizeSquared]
    exact hDir
  have hRotP : (FVector.mk C.FireForwardValue C.FireRightValue 0).Rotation E = ⟨0, 0, 0⟩ := by
    simp [FVector.Rotation, hFireForward, hFireRight, hSqrt, hAtanP]
  have hRotN : (FVector.mk (C.FireForwardValue * -1) (C.FireRightValue * -1) 0).Rotation E =
      ⟨0, 180, 0⟩ := by
    simp [FVector.Rotation, hFireForward, hFireRight, hSqrt, hAtanP, hAtanN]
  have hVecP : (FRotator.mk (0 : K) 0 0).RotateVector E ⟨90, 0, 0⟩ = ⟨90, 0, 0⟩ := by
    simp [FRotator.RotateVector, hSin0, hCos0]
  have hVecN : (FRotator.mk (0 : K) 180 0).RotateVector E ⟨90, 0, 0⟩ = ⟨-90, 0, 0⟩ := by
    simp [FRotator.RotateVector, hSin0, hCos0, hSin180, hCos180]
  have hmove := tickMove_other_requests E P C (TickMovement E P C DeltaSeconds)
  have hBack : ShotTimerExpired { P with bCanFire := false } = P := by
    cases P
    simp only [ShotTimerExpired] at *
    simp [hReady]
  refine ⟨?_, ?_, ?_, rfl, hBack⟩
  · rw [tick_shot E P C DeltaSeconds m w hMirror hWorld hReady hDir,
      fireShot_fires_with_world E P C _ _ false w hReady hDir hWorld,
      fireShot_fires_with_world E P C _ _ true w hReady hDir2 hWorld,
      hRotP, hRotN, hGun, hVecP, hVecN]
    cases P.FireSound <;>
      simp [spawnRequests_append, hmove.1, spawnRequests]
  · rw [tick_shot E P C DeltaSeconds m w hMirror hWorld hReady hDir,
      fireShot_fires_with_world E P C _ _ false w hReady hDir hWorld,
      fireShot_fires_with_world E P C _ _ true w hReady hDir2 hWorld]
    cases P.FireSound <;>
      simp [timerRequests_append, hmove.2.1, timerRequests]
  · rw [tick_shot E P C DeltaSeconds m w hMirror hWorld hReady hDir]

/-- C6 at the constructed pawn, pawn at `(300, 0, 0)` and mirror at
`(-300, 0, 0)`: spawns at `(390, 0, 0)` and `(-390, 0, 0)`, one timer of 1/10. -/
theorem fire_forward_end_to_end_witness :
    axisFMath.ExactOnXAxis ∧
      spawnRequests (Tick axisFMath samplePawn (fireContext (some ())) (1 / 10)).calls =
        [(⟨390, 0, 0⟩, ⟨0, 0, 0⟩), (⟨-390, 0, 0⟩, ⟨0, 180, 0⟩)] ∧
      timerRequests (Tick axisFMath samplePawn (fireContext (some ())) (1 / 10)).calls =
        [1 / 10] ∧
      (Tick axisFMath samplePawn (fireContext (some ())) (1 / 10)).result =
        .ok { samplePawn with bCanFire := false } ∧
      ShotTimerExpired { samplePawn with bCanFire := false } = samplePawn := by
  have hE : axisFMath.ExactOnXAxis := by
    norm_num [FMath.ExactOnXAxis, axisFMath]
  have h := fire_forward_end_to_end axisFMath samplePawn (fireContext (some ())) (1 / 10) 1 ()
    hE rfl rfl rfl rfl rfl rfl
  refine ⟨hE, ?_, ?_, h.2.2.1, h.2.2.2.2⟩
  · rw [h.1]
    simp [fireContext, idleContext, FVector.add]
    norm_num
  · rw [h.2.1]
    simp [samplePawn, AGMTK2021Pawn.construct]

/-- C9: in every tick with a valid world (and the mirror reference set), `Tick`
returns, and with `success` the value the primary `FireShot` returned:
`success` is true exactly when the cooldown was Ready and the fire direction
is non-zero; the pawn after the tick is the pawn before it with `bCanFire`
false if `success`, and untouched otherwise, so `bCanFire` is false afterwards
exactly when it was false before or `success`, and a false `bCanFire` stays
false; the mirror `FireShot` call requests no timer and no sound, and the tick
requests a timer only when `success`. -/
theorem cooldown_follows_primary_shot (E : FMath K) (P : AGMTK2021Pawn K) (C : TickContext K)
    (DeltaSeconds : K) (m : Nat) (w : Unit)
    (hMirror : P.MirrorPawn = some m) (hWorld : C.World = some w) :
    ∃ success P',
      (FireShot E P C C.ActorLocation ⟨C.FireForwardValue, C.FireRightValue, 0⟩
          FireShot_mirror_default).result = .ok (success, P) ∧
      (success = true ↔ (P.bCanFire = true ∧
        0 < (FVector.mk C.FireForwardValue C.FireRightValue 0).SizeSquared)) ∧
      (Tick E P C DeltaSeconds).result = .ok P' ∧
      P' = (if success then { P with bCanFire := false } else P) ∧
      (P'.bCanFire = false ↔ (P.bCanFire = false ∨ success = true)) ∧
      (P.bCanFire = false → P'.bCanFire = false) ∧
      timerRequests (FireShot E P C C.MirrorActorLocation
          ⟨C.FireForwardValue * -1, C.FireRightValue * -1, 0⟩ true).calls = [] ∧
      soundRequests (FireShot E P C C.MirrorActorLocation
          ⟨C.FireForwardValue * -1, C.FireRightValue * -1, 0⟩ true).calls = [] ∧
      timerRequests (Tick E P C DeltaSeconds).calls = (if success then [P.FireRate] else []) := by
  have hmove := tickMove_other_requests E P C (TickMovement E P C DeltaSeconds)
  by_cases hReady : P.bCanFire = true
  · by_cases hDir : 0 < (FVector.mk C.FireForwardValue C.FireRightValue 0).SizeSquared
    · have hDir2 :
          0 < (FVector.mk (C.FireForwardValue * -1) (C.FireRightValue * -1) 0).SizeSquared := by
        rw [mirrorFireDirection_sizeSquared]
        exact hDir
      refine ⟨true, { P with bCanFire := false }, ?_⟩
      rw [tick_shot E P C DeltaSeconds m w hMirror hWorld hReady hDir,
        fireShot_fires_with_world E P C _ _ FireShot_mirror_default w hReady hDir hWorld,
        fireShot_fires_with_world E P C _ _ false w hReady hDir hWorld,
        fireShot_fires_with_world E P C _ _ true w hReady hDir2 hWorld]
      refine ⟨rfl, by simp [hReady, hDir], rfl, by simp, by simp, by simp, by simp [timerRequests],
        by simp [soundRequests], ?_⟩
      cases P.FireSound <;> simp [timerRequests_append, hmove.2.1, timerRequests]
    · have hz := le_antisymm (not_lt.mp hDir) (sizeSquared_nonneg _)
      refine ⟨false, P, ?_⟩
      rw [tick_no_shot E P C DeltaSeconds m hMirror (Or.inr hz),
        fireShot_quiescent E P C _ _ _ hz,
        fireShot_quiescent E P C _ _ true ((mirrorFireDirection_sizeSquared _ _).trans hz)]
      refine ⟨rfl, by simp [hDir], rfl, by simp, by simp, by simp, by simp [timerRequests],
        by simp [soundRequests], ?_⟩
      simp [hmove.2.1]
  · have hc : P.bCanFire = false := by simpa using hReady
    refine ⟨false, P, ?_⟩
    rw [tick_no_shot E P C DeltaSeconds m hMirror (Or.inl hc),
      fireShot_cooling E P C _ _ _ hc, fireShot_cooling E P C _ _ true hc]
    refine ⟨rfl, by simp [hc], rfl, by simp, by simp [hc], by simp, by simp [timerRequests],
      by simp [soundRequests], ?_⟩
    simp [hmove.2.1]

/-- C9 at the constructed pawn, fire stick forward: the primary shot succeeds
and the cooldown flag goes to false. -/
theorem cooldown_follows_primary_shot_witness :
    ∃ success P',
      (FireShot axisFMath samplePawn (fireContext (some ())) (fireContext (some ())).ActorLocation
          ⟨(fireContext (some ())).FireForwardValue, (fireContext (some ())).FireRightValue, 0⟩
          FireShot_mirror_default).result = .ok (success, samplePawn) ∧
      (success = true ↔ (samplePawn.bCanFire = true ∧
        0 < (FVector.mk (fireContext (some ())).FireForwardValue
          (fireContext (some ())).FireRightValue 0).SizeSquared)) ∧
      (Tick axisFMath samplePawn (fireContext (some ())) (1 / 10)).result = .ok P' ∧
      P' = (if success then { samplePawn with bCanFire := false } else samplePawn) ∧
      (P'.bCanFire = false ↔ (samplePawn.bCanFire = false ∨ success = true)) ∧
      (samplePawn.bCanFire = false → P'.bCanFire = false) ∧
      timerRequests (FireShot axisFMath samplePawn (fireContext (some ()))
          (fireContext (some ())).MirrorActorLocation
          ⟨(fireContext (some ())).FireForwardValue * -1,
           (fireContext (some ())).FireRightValue * -1, 0⟩ true).calls = [] ∧
      soundRequests (FireShot axisFMath samplePawn (fireContext (some ()))
          (fireContext (some ())).MirrorActorLocation
          ⟨(fireContext (some ())).FireForwardValue * -1,
           (fireContext (some ())).FireRightValue * -1, 0⟩ true).calls = [] ∧
      timerRequests (Tick axisFMath samplePawn (fireContext (some ())) (1 / 10)).calls =
        (if success then [samplePawn.FireRate] else []) :=
  cooldown_follows_primary_shot axisFMath samplePawn (fireContext (some ())) (1 / 10) 1 () rfl rfl

/-- C7: with the cooldown Ready, a non-zero fire direction and a null world,
the primary call of `FireShot` (mirror = false) makes no call and ends in the
null dereference of line 126, `World->GetTimerManager()`; the mirror call
(mirror = true) skips the spawn and returns true. -/
theorem fireShot_null_world :
    FireShot axisFMath samplePawn (fireContext none) ⟨300, 0, 0⟩ ⟨1, 0, 0⟩ false =
        ⟨[], .error Fault.NullWorld⟩ ∧
      FireShot axisFMath samplePawn (fireContext none) ⟨-300, 0, 0⟩ ⟨-1, 0, 0⟩ true =
        ⟨[], .ok (true, samplePawn)⟩ := by
  constructor
  · exact fireShot_fires_without_world axisFMath samplePawn (fireContext none) _ _ false rfl
      (by simp [FVector.SizeSquared]) rfl
  · exact fireShot_fires_without_world axisFMath samplePawn (fireContext none) _ _ true rfl
      (by simp [FVector.SizeSquared]) rfl

/-- C8: the sweep result `Tick` tests and projects on is the one the mirror's
move left in `Hit`.  With the stick forward (movement `(100, 0, 0)`):
when only the primary's move is blocked, no deflection is requested; when only
the mirror's move is blocked, a deflection is requested; when both are, the
deflection requested for the primary is `(27, -36, 0)`, computed from the
mirror's normal and time, where the primary's own hit gives `(32, 24, 0)`. -/
theorem deflection_uses_mirror_hit :
    moveRequests (Tick axisFMath samplePawn (forwardContext wallHit noHit) (1 / 10)).calls =
        [(Target.primary, ⟨100, 0, 0⟩), (Target.mirror, ⟨-100, 0, 0⟩)] ∧
      moveRequests (Tick axisFMath samplePawn (forwardContext noHit mirrorWallHit) (1 / 10)).calls =
        [(Target.primary, ⟨100, 0, 0⟩), (Target.mirror, ⟨-100, 0, 0⟩),
         (Target.primary, ⟨27, -36, 0⟩), (Target.mirror, ⟨-27, 36, 0⟩)] ∧
      moveRequests
          (Tick axisFMath samplePawn (forwardContext wallHit mirrorWallHit) (1 / 10)).calls =
        [(Target.primary, ⟨100, 0, 0⟩), (Target.mirror, ⟨-100, 0, 0⟩),
         (Target.primary, ⟨27, -36, 0⟩), (Target.mirror, ⟨-27, 36, 0⟩)] ∧
      Deflection axisFMath.InvSqrt ⟨100, 0, 0⟩ wallHit = ⟨32, 24, 0⟩ := by
  have hmov : ∀ a b, TickMovement axisFMath samplePawn (forwardContext a b) (1 / 10) =
      ⟨100, 0, 0⟩ := by
    intro a b
    simp only [TickMovement, moveDirection_eq]
    norm_num [forwardContext, idleContext, samplePawn, AGMTK2021Pawn.construct, FVector.scale]
  have hpos : 0 < (FVector.mk (100 : ℚ) 0 0).SizeSquared := by
    norm_num [FVector.SizeSquared]
  have hD1 : Deflection axisFMath.InvSqrt ⟨100, 0, 0⟩ wallHit = ⟨32, 24, 0⟩ := by
    norm_num [Deflection, FVector.GetSafeNormal2D, wallHit, FVector.VectorPlaneProject,
      FVector.ProjectOnToNormal, FVector.sub, FVector.scale, FVector.dot]
  have hD2 : Deflection axisFMath.InvSqrt ⟨100, 0, 0⟩ mirrorWallHit = ⟨27, -36, 0⟩ := by
    norm_num [Deflection, FVector.GetSafeNormal2D, mirrorWallHit, FVector.VectorPlaneProject,
      FVector.ProjectOnToNormal, FVector.sub, FVector.scale, FVector.dot]
  have hcalls : ∀ a b,
      moveRequests (Tick axisFMath samplePawn (forwardContext a b) (1 / 10)).calls =
        mirroredMoves (⟨100, 0, 0⟩ ::
          (if b.IsValidBlockingHit = true then [Deflection axisFMath.InvSqrt ⟨100, 0, 0⟩ b]
           else [])) := by
    intro a b
    rw [tick_moveRequests axisFMath samplePawn _ _ 1 rfl,
      tickMove_moveRequests axisFMath samplePawn _ _ 1 rfl, hmov, if_pos hpos]
    rfl
  refine ⟨?_, ?_, ?_, hD1⟩
  · rw [hcalls]
    norm_num [noHit, FHitResult.init, FHitResult.IsValidBlockingHit, mirroredMoves, FVector.scale]
  · rw [hcalls, hD2]
    norm_num [mirrorWallHit, FHitResult.IsValidBlockingHit, mirroredMoves, FVector.scale]
  · rw [hcalls, hD2]
    norm_num [mirrorWallHit, FHitResult.IsValidBlockingHit, mirroredMoves, FVector.scale]

end Theorems

end GMTK2021
